import Mathlib

/-!
Verification of the Twenty CRM MCP server: a shallow embedding of the
OAuth provider (src/oauth/provider.js), the authorization-page generator
(authorize-page.js), the desktop proxy's call-tool handler, and the
field-normalization functions, together with proofs of the specified
properties.

JavaScript `Map` objects are embedded as association lists with
`mGet`/`mSet`/`mDel`; timestamps are integers (milliseconds for
`Date.now()`, seconds where the source divides by 1000); `fetch`
outcomes and thrown values are explicit data so that the fallible code
is a total function; random identifiers (`crypto.randomBytes`) are
passed in as explicit arguments.
-/

/-- Lookup in a JS `Map` embedded as an association list (`map.get`). -/
def mGet {α : Type} : List (String × α) → String → Option α
  | [], _ => none
  | (k, v) :: rest, key => if k = key then some v else mGet rest key

/-- Deletion from a JS `Map` embedded as an association list (`map.delete`). -/
def mDel {α : Type} : List (String × α) → String → List (String × α)
  | [], _ => []
  | (k, v) :: rest, key => if k = key then mDel rest key else (k, v) :: mDel rest key

/-- Insertion into a JS `Map` embedded as an association list (`map.set`):
the new binding replaces any existing binding for the key. -/
def mSet {α : Type} (m : List (String × α)) (key : String) (v : α) : List (String × α) :=
  (key, v) :: mDel m key

/-! ## HTML escaping (authorize-page.js, `escapeHtml`) -/

/-- One global single-character replacement on a character list: the list-level
semantics of JS `String.prototype.replace` with a single-character global
regex (every occurrence of `c` becomes `r`). -/
def replaceCharL (c : Char) (r : List Char) : List Char → List Char
  | [] => []
  | a :: rest => (if a = c then r else [a]) ++ replaceCharL c r rest

/-- String-level wrapper for `replaceCharL`: `s.replace(/c/g, r)`. -/
def replaceChar (c : Char) (r : String) (s : String) : String :=
  String.mk (replaceCharL c r.data s.data)

/-- `escapeHtml` from authorize-page.js: an empty (falsy) string yields `''`,
otherwise the five sequential global replacements, ampersand first, then
`<`, `>`, `"` and the apostrophe. -/
def escapeHtml (s : String) : String :=
  if s.isEmpty then "" else
    replaceChar '\x27' "&#39;"
      (replaceChar '"' "&quot;"
        (replaceChar '>' "&gt;"
          (replaceChar '<' "&lt;"
            (replaceChar '&' "&amp;" s))))

/-- The per-character effect of the full `escapeHtml` replacement chain. -/
def escBlock (c : Char) : List Char :=
  if c = '&' then "&amp;".data
  else if c = '<' then "&lt;".data
  else if c = '>' then "&gt;".data
  else if c = '"' then "&quot;".data
  else if c = '\x27' then "&#39;".data
  else [c]

/-- Character-by-character escaping: concatenation of the per-character blocks. -/
def escAll : List Char → List Char
  | [] => []
  | c :: rest => escBlock c ++ escAll rest

/-- The five HTML entities that `escapeHtml` may emit. -/
def htmlEntities : List (List Char) :=
  ["&amp;".data, "&lt;".data, "&gt;".data, "&quot;".data, "&#39;".data]

/-- Whether a character list begins with one of the five emitted entities. -/
def isEntityStart (l : List Char) : Bool :=
  htmlEntities.any (fun e => e.isPrefixOf l)

/-- A character list is markup-clean when it contains no raw `<`, `>`, `"` or
apostrophe, and every ampersand in it begins one of the five HTML entities. -/
def entityCleanB : List Char → Bool
  | [] => true
  | c :: rest =>
    (if c = '&' then isEntityStart (c :: rest)
     else !(c == '<' || c == '>' || c == '"' || c == '\x27')) && entityCleanB rest

/-! ## Authorization page (authorize-page.js, `generateAuthorizePage`)

The HTML template literal, split at its six interpolation sites; `\x7b` /
`\x7d` denote literal braces and `\x27` literal apostrophes in the source
text. -/

def pageSeg0 : String :=
  "<!DOCTYPE html>\n<html lang=\"en\">\n<head>\n  <meta charset=\"UTF-8\">\n  <meta name=\"viewport\" content=\"width=device-width, initial-scale=1.0\">\n  <title>Authorize - Twenty CRM MCP Server</title>\n  <style>\n    * \x7b\n      box-sizing: border-box;\n      margin: 0;\n      padding: 0;\n    \x7d\n    body \x7b\n      font-family: -apple-system, BlinkMacSystemFont, \x27Segoe UI\x27, Roboto, Oxygen, Ubuntu, sans-serif;\n      background: linear-gradient(135deg, #1a1a2e 0%, #16213e 100%);\n      min-height: 100vh;\n      display: flex;\n      align-items: center;\n      justify-content: center;\n      padding: 20px;\n    \x7d\n    .container \x7b\n      background: white;\n      border-radius: 12px;\n      box-shadow: 0 4px 24px rgba(0, 0, 0, 0.3);\n      padding: 40px;\n      max-width: 440px;\n      width: 100%;\n    \x7d\n    .logo \x7b\n      text-align: center;\n      margin-bottom: 24px;\n    \x7d\n    .logo h1 \x7b\n      color: #1a1a2e;\n      font-size: 24px;\n      font-weight: 600;\n    \x7d\n    .logo span \x7b\n      color: #667eea;\n    \x7d\n    .client-info \x7b\n      background: #f8f9fa;\n      border-radius: 8px;\n      padding: 16px;\n      margin-bottom: 24px;\n    \x7d\n    .client-info h2 \x7b\n      font-size: 14px;\n      color: #666;\n      font-weight: 500;\n      margin-bottom: 8px;\n    \x7d\n    .client-info .name \x7b\n      font-size: 18px;\n      color: #1a1a2e;\n      font-weight: 600;\n    \x7d\n    .scopes \x7b\n      margin-bottom: 24px;\n    \x7d\n    .scopes h3 \x7b\n      font-size: 14px;\n      color: #666;\n      font-weight: 500;\n      margin-bottom: 12px;\n    \x7d\n    .scopes ul \x7b\n      list-style: none;\n    \x7d\n    .scopes li \x7b\n      background: #e8f4fd;\n      color: #1a73e8;\n      padding: 8px 12px;\n      border-radius: 6px;\n      font-size: 14px;\n      margin-bottom: 6px;\n      display: inline-block;\n      margin-right: 6px;\n    \x7d\n    .form-group \x7b\n      margin-bottom: 20px;\n    \x7d\n    .form-group label \x7b\n      display: block;\n      font-size: 14px;\n      color: #333;\n      font-weight: 500;\n      margin-bottom: 8px;\n    \x7d\n    .form-group input \x7b\n      width: 100%;\n      padding: 12px 16px;\n      border: 2px solid #e1e4e8;\n      border-radius: 8px;\n      font-size: 14px;\n      transition: border-color 0.2s;\n    \x7d\n    .form-group input:focus \x7b\n      outline: none;\n      border-color: #667eea;\n    \x7d\n    .form-group .hint \x7b\n      font-size: 12px;\n      color: #666;\n      margin-top: 6px;\n    \x7d\n    .error \x7b\n      background: #fee2e2;\n      color: #dc2626;\n      padding: 12px 16px;\n      border-radius: 8px;\n      font-size: 14px;\n      margin-bottom: 20px;\n    \x7d\n    .buttons \x7b\n      display: flex;\n      gap: 12px;\n    \x7d\n    .btn \x7b\n      flex: 1;\n      padding: 12px 20px;\n      border-radius: 8px;\n      font-size: 14px;\n      font-weight: 600;\n      cursor: pointer;\n      transition: all 0.2s;\n      border: none;\n    \x7d\n    .btn-primary \x7b\n      background: linear-gradient(135deg, #667eea 0%, #764ba2 100%);\n      color: white;\n    \x7d\n    .btn-primary:hover \x7b\n      transform: translateY(-1px);\n      box-shadow: 0 4px 12px rgba(102, 126, 234, 0.4);\n    \x7d\n    .btn-secondary \x7b\n      background: #f1f3f4;\n      color: #5f6368;\n    \x7d\n    .btn-secondary:hover \x7b\n      background: #e8eaed;\n    \x7d\n    .info \x7b\n      margin-top: 24px;\n      padding-top: 20px;\n      border-top: 1px solid #e1e4e8;\n      font-size: 12px;\n      color: #666;\n      text-align: center;\n    \x7d\n    .info a \x7b\n      color: #667eea;\n      text-decoration: none;\n    \x7d\n    .info a:hover \x7b\n      text-decoration: underline;\n    \x7d\n  </style>\n</head>\n<body>\n  <div class=\"container\">\n    <div class=\"logo\">\n      <h1>Twenty <span>CRM</span> MCP Server</h1>\n    </div>\n\n    <div class=\"client-info\">\n      <h2>Application requesting access</h2>\n      <div class=\"name\">"

def pageSeg1 : String :=
  "</div>\n    </div>\n\n    <div class=\"scopes\">\n      <h3>Requested permissions</h3>\n      <ul>"

def pageSeg2 : String :=
  "</ul>\n    </div>\n\n    "

def pageSeg3 : String :=
  "\n\n    <form method=\"POST\" action=\"/authorize/submit\">\n      <input type=\"hidden\" name=\"state\" value=\""

def pageSeg4 : String :=
  "\">\n      <input type=\"hidden\" name=\"redirect_uri\" value=\""

def pageSeg5 : String :=
  "\">\n      <input type=\"hidden\" name=\"code_challenge\" value=\""

def pageSeg6 : String :=
  "\">\n\n      <div class=\"form-group\">\n        <label for=\"api_key\">Your Twenty CRM API Key</label>\n        <input\n          type=\"password\"\n          id=\"api_key\"\n          name=\"api_key\"\n          placeholder=\"Enter your Twenty CRM API key\"\n          required\n          autocomplete=\"off\"\n        >\n        <div class=\"hint\">\n          Find your API key in Twenty CRM: Settings &rarr; API &amp; Webhooks\n        </div>\n      </div>\n\n      <div class=\"buttons\">\n        <button type=\"button\" class=\"btn btn-secondary\" onclick=\"handleDeny()\">Deny</button>\n        <button type=\"submit\" class=\"btn btn-primary\">Authorize</button>\n      </div>\n    </form>\n\n    <div class=\"info\">\n      Your API key is stored securely and used only to access your Twenty CRM data.\n      <br>\n      <a href=\"https://github.com/Limely/twenty-crm-mcp-server\" target=\"_blank\">Learn more</a>\n    </div>\n  </div>\n\n  <script>\n    function handleDeny() \x7b\n      const redirectUri = document.querySelector(\x27input[name=\"redirect_uri\"]\x27).value;\n      const state = document.querySelector(\x27input[name=\"state\"]\x27).value;\n      if (redirectUri) \x7b\n        const url = new URL(redirectUri);\n        url.searchParams.set(\x27error\x27, \x27access_denied\x27);\n        url.searchParams.set(\x27error_description\x27, \x27User denied the authorization request\x27);\n        if (state) \x7b\n          url.searchParams.set(\x27state\x27, state);\n        \x7d\n        window.location.href = url.toString();\n      \x7d\n    \x7d\n  </script>\n</body>\n</html>"

/-- The options object taken by `generateAuthorizePage`. -/
structure AuthorizePageOptions where
  clientName : String
  scopes : List String
  state : String
  redirectUri : String
  codeChallenge : String
  error : Option String
deriving DecidableEq

/-- `scopeList` in `generateAuthorizePage`: an escaped `<li>` entry per scope,
or the default entry when the scope list is empty. -/
def scopeListHtml (scopes : List String) : String :=
  if scopes.length > 0 then
    String.join (scopes.map (fun s => "<li>" ++ escapeHtml s ++ "</li>"))
  else "<li>mcp:tools (default)</li>"

/-- `errorHtml` in `generateAuthorizePage`: the error banner for a truthy
(non-empty) error message, otherwise the empty string. -/
def errorBannerHtml (error : Option String) : String :=
  match error with
  | some e => if e.isEmpty then "" else "<div class=\"error\">" ++ escapeHtml e ++ "</div>"
  | none => ""

/-- `generateAuthorizePage` from authorize-page.js: the template with each
caller-supplied value escaped at its interpolation site (a falsy client name
falls back to `Unknown Application`; `state || ''` and the like are the
identity on strings). -/
def generateAuthorizePage (opts : AuthorizePageOptions) : String :=
  pageSeg0
    ++ escapeHtml (if opts.clientName.isEmpty then "Unknown Application" else opts.clientName)
    ++ pageSeg1 ++ scopeListHtml opts.scopes
    ++ pageSeg2 ++ errorBannerHtml opts.error
    ++ pageSeg3 ++ escapeHtml opts.state
    ++ pageSeg4 ++ escapeHtml opts.redirectUri
    ++ pageSeg5 ++ escapeHtml opts.codeChallenge
    ++ pageSeg6

/-- The page template as a raw interpolation of already-escaped pieces: used
to state that `generateAuthorizePage` factors through `escapeHtml`. -/
def pageFromEscaped (escClientName : String) (escScopes : List String)
    (escState escRedirectUri escCodeChallenge : String) (escError : Option String) : String :=
  pageSeg0 ++ escClientName
    ++ pageSeg1
    ++ (if escScopes.length > 0 then
          String.join (escScopes.map (fun s => "<li>" ++ s ++ "</li>"))
        else "<li>mcp:tools (default)</li>")
    ++ pageSeg2
    ++ (match escError with
        | some e => if e.isEmpty then "" else "<div class=\"error\">" ++ e ++ "</div>"
        | none => "")
    ++ pageSeg3 ++ escState
    ++ pageSeg4 ++ escRedirectUri
    ++ pageSeg5 ++ escCodeChallenge
    ++ pageSeg6

/-! ## OAuth provider (src/oauth/provider.js, `TwentyCRMOAuthProvider`) -/

/-- The OAuth client record, as far as the provider's token logic reads it
(`client.client_id`). -/
structure ClientInfo where
  client_id : String
deriving DecidableEq

/-- The constructor's token configuration fields. -/
structure OAuthConfig where
  accessTokenTTL : Int
  authCodeTTL : Int
  refreshTokenTTL : Int
deriving DecidableEq

/-- The constructor defaults: 3600 s access tokens, 300 s authorization
codes, 30-day refresh tokens. -/
def defaultConfig : OAuthConfig :=
  { accessTokenTTL := 3600, authCodeTTL := 300, refreshTokenTTL := 30 * 24 * 3600 }

/-- An entry of `_codes`: the record stored by `handleAuthorizeSubmit`.
It carries no client identifier. `expiresAt` is in milliseconds. -/
structure CodeData where
  twentyApiKey : String
  codeChallenge : String
  redirectUri : String
  state : String
  scopes : List String
  expiresAt : Int
deriving DecidableEq

/-- An entry of `_tokens` (access tokens); `expiresAt` is in seconds. -/
structure TokenData where
  clientId : String
  scopes : List String
  expiresAt : Int
  twentyApiKey : String
  resource : Option String
deriving DecidableEq

/-- An entry of `_refreshTokens`; `createdAt` is in seconds. -/
structure RefreshData where
  clientId : String
  scopes : List String
  twentyApiKey : String
  createdAt : Int
deriving DecidableEq

/-- The provider's mutable stores relevant to code/token handling. -/
structure ProviderState where
  codes : List (String × CodeData)
  tokens : List (String × TokenData)
  refreshTokens : List (String × RefreshData)
deriving DecidableEq

/-- The outcome of the `fetch` in `validateTwentyApiKey`: an HTTP response
with a status code, or a thrown network error. -/
inductive FetchOutcome where
  | success (status : Nat)
  | failure (message : String)
deriving DecidableEq

/-- The path of the validation request relative to the CRM base URL:
a GET against a people listing bounded to one record. -/
def validateRequestPath : String := "/rest/people?limit=1"

/-- `validateTwentyApiKey`: `response.ok` (status in 200..299) on a response,
`false` when the fetch throws. -/
def validateTwentyApiKey : FetchOutcome → Bool
  | .success status => 200 ≤ status && status < 300
  | .failure _ => false

/-- The body fields read by `handleAuthorizeSubmit`; a missing (undefined)
field is embedded as the empty string, matching its falsiness checks. -/
structure SubmitBody where
  api_key : String
  state : String
  redirect_uri : String
  code_challenge : String
deriving DecidableEq

/-- The observable response of `handleAuthorizeSubmit`: an HTML page with a
status code, or a redirect to the redirect URI carrying the `code` query
parameter and, when the state is non-empty, the `state` parameter. -/
inductive SubmitResult where
  | page (status : Nat) (html : String)
  | redirect (uri : String) (code : String) (state : Option String)
deriving DecidableEq

/-- `handleAuthorizeSubmit`: requires a non-empty API key and redirect URI,
validates the key (the fetch outcome is `keyCheck`), and on success stores a
new authorization code (`newCode` stands for the generated random id) that
expires `authCodeTTL` seconds after `nowMs`, then redirects. -/
def handleAuthorizeSubmit (cfg : OAuthConfig) (st : ProviderState) (body : SubmitBody)
    (keyCheck : FetchOutcome) (newCode : String) (nowMs : Int) :
    SubmitResult × ProviderState :=
  if body.api_key.isEmpty || body.redirect_uri.isEmpty then
    (SubmitResult.page 400 (generateAuthorizePage
      { clientName := "Unknown", scopes := [], state := body.state,
        redirectUri := body.redirect_uri, codeChallenge := body.code_challenge,
        error := some "API key is required" }), st)
  else if !(validateTwentyApiKey keyCheck) then
    (SubmitResult.page 400 (generateAuthorizePage
      { clientName := "Unknown", scopes := [], state := body.state,
        redirectUri := body.redirect_uri, codeChallenge := body.code_challenge,
        error := some "Invalid API key. Please check your Twenty CRM API key and try again." }), st)
  else
    let codeData : CodeData :=
      { twentyApiKey := body.api_key, codeChallenge := body.code_challenge,
        redirectUri := body.redirect_uri, state := body.state,
        scopes := ["mcp:tools"], expiresAt := nowMs + cfg.authCodeTTL * 1000 }
    (SubmitResult.redirect body.redirect_uri newCode
       (if body.state.isEmpty then none else some body.state),
     { st with codes := mSet st.codes newCode codeData })

/-- `scopes.join(' ')`. -/
def joinScopes (scopes : List String) : String := String.intercalate " " scopes

/-- The token-endpoint response shape returned by the two exchange
operations. -/
structure TokenResponse where
  access_token : String
  token_type : String
  expires_in : Int
  refresh_token : Option String
  scope : String
deriving DecidableEq

/-- `exchangeAuthorizationCode`: not-found and expiry checks (the latter
deleting the code), then strict one-time-use deletion and minting of an
access token and a refresh token bound to the caller's `client_id`.
`newAccessToken`/`newRefreshToken` stand for the generated random tokens;
`nowMs` is `Date.now()` and the stored second-resolution times use
`nowMs / 1000`. -/
def exchangeAuthorizationCode (cfg : OAuthConfig) (st : ProviderState) (client : ClientInfo)
    (authorizationCode : String) (_codeVerifier : Option String) (nowMs : Int)
    (newAccessToken newRefreshToken : String) (resource : Option String) :
    Except String TokenResponse × ProviderState :=
  match mGet st.codes authorizationCode with
  | none => (.error "Invalid authorization code", st)
  | some codeData =>
    if nowMs > codeData.expiresAt then
      (.error "Authorization code expired", { st with codes := mDel st.codes authorizationCode })
    else
      let now := nowMs / 1000
      let expiresAt := now + cfg.accessTokenTTL
      let tokenData : TokenData :=
        { clientId := client.client_id, scopes := codeData.scopes,
          expiresAt := expiresAt, twentyApiKey := codeData.twentyApiKey,
          resource := resource }
      let refreshData : RefreshData :=
        { clientId := client.client_id, scopes := codeData.scopes,
          twentyApiKey := codeData.twentyApiKey, createdAt := now }
      (.ok { access_token := newAccessToken, token_type := "Bearer",
             expires_in := cfg.accessTokenTTL, refresh_token := some newRefreshToken,
             scope := joinScopes codeData.scopes },
       { st with
         codes := mDel st.codes authorizationCode,
         tokens := mSet st.tokens newAccessToken tokenData,
         refreshTokens := mSet st.refreshTokens newRefreshToken refreshData })

/-- `exchangeRefreshToken`: not-found, ownership and expiry checks (expiry
deleting the entry), then minting of a new access token whose scopes are the
requested scopes filtered to the token's original scopes when a non-empty
request is supplied, else the original scopes. The refresh token itself is
not rotated. A missing (undefined) `scopes` argument is `none`. -/
def exchangeRefreshToken (cfg : OAuthConfig) (st : ProviderState) (client : ClientInfo)
    (refreshTok : String) (scopes : Option (List String)) (nowS : Int)
    (newAccessToken : String) (resource : Option String) :
    Except String TokenResponse × ProviderState :=
  match mGet st.refreshTokens refreshTok with
  | none => (.error "Invalid refresh token", st)
  | some refreshData =>
    if refreshData.clientId ≠ client.client_id then
      (.error "Refresh token does not belong to this client", st)
    else if nowS - refreshData.createdAt > cfg.refreshTokenTTL then
      (.error "Refresh token expired",
       { st with refreshTokens := mDel st.refreshTokens refreshTok })
    else
      let effectiveScopes :=
        match scopes with
        | some requested =>
          if requested.length > 0 then
            requested.filter (fun s => refreshData.scopes.contains s)
          else refreshData.scopes
        | none => refreshData.scopes
      let tokenData : TokenData :=
        { clientId := client.client_id, scopes := effectiveScopes,
          expiresAt := nowS + cfg.accessTokenTTL,
          twentyApiKey := refreshData.twentyApiKey, resource := resource }
      (.ok { access_token := newAccessToken, token_type := "Bearer",
             expires_in := cfg.accessTokenTTL, refresh_token := none,
             scope := joinScopes effectiveScopes },
       { st with tokens := mSet st.tokens newAccessToken tokenData })

/-- The auth info returned by `verifyAccessToken` (the bound CRM API key is
the `extra.twentyApiKey` extension field). -/
structure AuthInfo where
  token : String
  clientId : String
  scopes : List String
  expiresAt : Int
  resource : Option String
  twentyApiKey : String
deriving DecidableEq

/-- `verifyAccessToken`: not-found check, then lazy expiry invalidation
(`now > expiresAt` deletes the entry and fails), else the token metadata. -/
def verifyAccessToken (st : ProviderState) (token : String) (nowS : Int) :
    Except String AuthInfo × ProviderState :=
  match mGet st.tokens token with
  | none => (.error "Invalid access token", st)
  | some tokenData =>
    if nowS > tokenData.expiresAt then
      (.error "Access token expired", { st with tokens := mDel st.tokens token })
    else
      (.ok { token := token, clientId := tokenData.clientId, scopes := tokenData.scopes,
             expiresAt := tokenData.expiresAt, resource := tokenData.resource,
             twentyApiKey := tokenData.twentyApiKey }, st)

/-- `revokeToken`: tries the access-token store unless the hint names
`refresh_token`, then the refresh-token store unless the hint names
`access_token`; an entry is deleted only when present and owned by the
requesting client, and the operation is total — it never raises. A missing
(undefined) hint is `none`; an empty-string hint is likewise falsy. -/
def revokeToken (st : ProviderState) (client : ClientInfo) (token : String)
    (tokenTypeHint : Option String) : ProviderState :=
  let hintFalsy := match tokenTypeHint with
    | none => true
    | some h => h.isEmpty
  let tryAccess := hintFalsy || tokenTypeHint == some "access_token"
  let tryRefresh := hintFalsy || tokenTypeHint == some "refresh_token"
  let accessOwned := match mGet st.tokens token with
    | some d => d.clientId == client.client_id
    | none => false
  let refreshOwned := match mGet st.refreshTokens token with
    | some d => d.clientId == client.client_id
    | none => false
  if tryAccess && accessOwned then { st with tokens := mDel st.tokens token }
  else if tryRefresh && refreshOwned then
    { st with refreshTokens := mDel st.refreshTokens token }
  else st

/-- `getApiKeyForToken`: `tokenData?.twentyApiKey || null` — a plain store
lookup with no expiry check; the falsy-key fallback to `null` is the
empty-string case. -/
def getApiKeyForToken (st : ProviderState) (token : String) : Option String :=
  match mGet st.tokens token with
  | some tokenData => if tokenData.twentyApiKey.isEmpty then none else some tokenData.twentyApiKey
  | none => none

/-! ## Desktop proxy (call-tool handler in `initializeServer`) -/

/-- A content item of an assistant-protocol tool result (only the `text`
kind appears in the proxy's error path). -/
inductive ToolContent where
  | text (text : String)
deriving DecidableEq

/-- The protocol result returned by the proxy's call-tool handler. -/
structure ToolCallResult where
  content : List ToolContent
  isError : Bool
deriving DecidableEq

/-- A thrown JS value: an `Error` instance with a message, or any other
value together with its `String(...)` rendering. -/
inductive ThrownValue where
  | errObject (message : String)
  | nonErrorValue (stringified : String)
deriving DecidableEq

/-- `error instanceof Error ? error.message : String(error)`. -/
def thrownMessage : ThrownValue → String
  | .errObject m => m
  | .nonErrorValue s => s

/-- The proxy's `CallToolRequestSchema` handler, given the outcome of
`callRemoteTool`: a successful remote result is forwarded verbatim, and a
thrown error is converted into an `isError` result carrying the message —
the handler is total, so the local stdio session never sees the exception. -/
def proxyCallToolHandler (remote : Except ThrownValue ToolCallResult) : ToolCallResult :=
  match remote with
  | .ok result => result
  | .error e => { content := [ToolContent.text ("Error: " ++ thrownMessage e)], isError := true }

/-! ## Field normalization

The four normalization functions live in the adapter server's `index.js`,
which is not part of the available sources (only their test suite is); they
are modelled from the spec below over an embedding of loosely-typed JSON
values. -/

/-- A loosely-typed JS value as the normalization functions inspect it:
a string, an array, an object (association list of fields), or null. -/
inductive JsonVal where
  | str (s : String)
  | arr (items : List JsonVal)
  | obj (fields : List (String × JsonVal))
  | nullv

/-- The first present key among `keys` in an object's fields. -/
def firstKey (fields : List (String × JsonVal)) : List String → Option JsonVal
  | [] => none
  | k :: ks =>
    match mGet fields k with
    | some v => some v
    | none => firstKey fields ks

/-- Modelled from the spec: `normalizeEmailsValue` (the EMAILS rule of
§4.2.1; the function itself is in the unavailable `index.js`). A plain
string becomes the structured shape with a null remainder; an array takes
its first entry's address as primary and maps the remainder to
`{value: _}` entries (an empty remainder becomes null); an object —
in particular one already carrying `primaryEmail` — and any other value
pass through unchanged. -/
def normalizeEmailsValue : JsonVal → JsonVal
  | .str s => .obj [("primaryEmail", .str s), ("additionalEmails", .nullv)]
  | .arr items =>
    let addressOf : JsonVal → JsonVal := fun e =>
      match e with
      | .str s => .str s
      | .obj fields => (mGet fields "value").getD JsonVal.nullv
      | v => v
    let primary := match items.head? with
      | some e => addressOf e
      | none => JsonVal.nullv
    let restEntries := items.drop 1
    let additional :=
      if restEntries.length > 0 then
        JsonVal.arr (restEntries.map (fun e => JsonVal.obj [("value", addressOf e)]))
      else JsonVal.nullv
    .obj [("primaryEmail", primary), ("additionalEmails", additional)]
  | .obj fields => .obj fields
  | .nullv => .nullv

/-- Modelled from the spec: `normalizePhonesValue` (the PHONES rule of
§4.2.1; the function itself is in the unavailable `index.js`). A plain
string populates `primaryPhoneNumber` with empty codes and a null
remainder; an array's first entry (string or `{number, countryCode,
callingCode}` object, absent codes defaulting to the empty string)
populates the primary fields and the remainder maps to `{number,
countryCode, callingCode}` entries; an object — in particular one already
carrying `primaryPhoneNumber` — and any other value pass through
unchanged. -/
def normalizePhonesValue : JsonVal → JsonVal
  | .str s => .obj [("primaryPhoneNumber", .str s), ("primaryPhoneCallingCode", .str ""),
                    ("primaryPhoneCountryCode", .str ""), ("additionalPhones", .nullv)]
  | .arr items =>
    let toPhoneObj : JsonVal → JsonVal := fun e =>
      match e with
      | .str s => .obj [("number", .str s), ("countryCode", .str ""), ("callingCode", .str "")]
      | .obj fields => .obj [("number", (mGet fields "number").getD (JsonVal.str "")),
                             ("countryCode", (mGet fields "countryCode").getD (JsonVal.str "")),
                             ("callingCode", (mGet fields "callingCode").getD (JsonVal.str ""))]
      | v => .obj [("number", v), ("countryCode", .str ""), ("callingCode", .str "")]
    let primNumber := match items.head? with
      | some (.str s) => JsonVal.str s
      | some (.obj fields) => (mGet fields "number").getD (JsonVal.str "")
      | some v => v
      | none => JsonVal.str ""
    let primCalling := match items.head? with
      | some (.obj fields) => (mGet fields "callingCode").getD (JsonVal.str "")
      | _ => JsonVal.str ""
    let primCountry := match items.head? with
      | some (.obj fields) => (mGet fields "countryCode").getD (JsonVal.str "")
      | _ => JsonVal.str ""
    let restEntries := items.drop 1
    let additional :=
      if restEntries.length > 0 then JsonVal.arr (restEntries.map toPhoneObj)
      else JsonVal.nullv
    .obj [("primaryPhoneNumber", primNumber), ("primaryPhoneCallingCode", primCalling),
          ("primaryPhoneCountryCode", primCountry), ("additionalPhones", additional)]
  | .obj fields => .obj fields
  | .nullv => .nullv

/-- Modelled from the spec: `normalizeAddressValue` (the ADDRESS rule of
§4.2.1; the function itself is in the unavailable `index.js`). A plain
string fills `addressStreet1` with empty companions and null lat/lng; an
object already keyed with `addressStreet1` passes through unchanged; any
other object is mapped from the standard shapes (`street1`/`street2`/
`postalCode`, or `addressLine1`/`addressLine2`/`zip`, with `city`/`state`/
`country` direct), absent keys defaulting to the empty string and lat/lng
to null; other values pass through unchanged. -/
def normalizeAddressValue : JsonVal → JsonVal
  | .str s => .obj [("addressStreet1", .str s), ("addressStreet2", .str ""),
                    ("addressCity", .str ""), ("addressState", .str ""),
                    ("addressPostcode", .str ""), ("addressCountry", .str ""),
                    ("addressLat", .nullv), ("addressLng", .nullv)]
  | .obj fields =>
    if (mGet fields "addressStreet1").isSome then .obj fields
    else
      .obj [("addressStreet1", (firstKey fields ["street1", "addressLine1"]).getD (.str "")),
            ("addressStreet2", (firstKey fields ["street2", "addressLine2"]).getD (.str "")),
            ("addressCity", (mGet fields "city").getD (.str "")),
            ("addressState", (mGet fields "state").getD (.str "")),
            ("addressPostcode", (firstKey fields ["postalCode", "zip"]).getD (.str "")),
            ("addressCountry", (mGet fields "country").getD (.str "")),
            ("addressLat", (mGet fields "lat").getD .nullv),
            ("addressLng", (mGet fields "lng").getD .nullv)]
  | .arr items => .arr items
  | .nullv => .nullv

/-- Modelled from the spec: `normalizeLinksValue` (the LINKS rule of
§4.2.1; the function itself is in the unavailable `index.js`). A plain URL
string becomes the primary link with an empty label and null secondaries;
an array's first entry becomes the primary (empty label for a bare string)
and the remainder becomes `{url, label}` entries (an empty remainder
becomes null); an object — in particular one already carrying
`primaryLinkUrl` — and any other value pass through unchanged. -/
def normalizeLinksValue : JsonVal → JsonVal
  | .str s => .obj [("primaryLinkUrl", .str s), ("primaryLinkLabel", .str ""),
                    ("secondaryLinks", .nullv)]
  | .arr items =>
    let urlOf : JsonVal → JsonVal := fun e =>
      match e with
      | .str s => .str s
      | .obj fields => (mGet fields "url").getD (JsonVal.str "")
      | v => v
    let labelOf : JsonVal → JsonVal := fun e =>
      match e with
      | .obj fields => (mGet fields "label").getD (JsonVal.str "")
      | _ => JsonVal.str ""
    let restEntries := items.drop 1
    let secondary :=
      if restEntries.length > 0 then
        JsonVal.arr (restEntries.map (fun e => JsonVal.obj [("url", urlOf e), ("label", labelOf e)]))
      else JsonVal.nullv
    .obj [("primaryLinkUrl", match items.head? with
            | some e => urlOf e
            | none => JsonVal.str ""),
          ("primaryLinkLabel", match items.head? with
            | some e => labelOf e
            | none => JsonVal.str ""),
          ("secondaryLinks", secondary)]
  | .obj fields => .obj fields
  | .nullv => .nullv

/-! ## Helper lemmas -/

theorem mGet_mDel_self {α : Type} (m : List (String × α)) (k : String) :
    mGet (mDel m k) k = none := by
  induction m with
  | nil => rfl
  | cons p rest ih =>
    obtain ⟨q, v⟩ := p
    by_cases h : q = k
    · simpa [mDel, h] using ih
    · simpa [mDel, mGet, h] using ih

theorem mGet_mSet_self {α : Type} (m : List (String × α)) (k : String) (v : α) :
    mGet (mSet m k v) k = some v := by
  simp [mSet, mGet]

/-! ## Claims about the OAuth token operations -/

/-- C3: `exchangeRefreshToken` fails when the caller's client id differs from
the stored token's owning client id without touching the store, fails as
expired (deleting the entry) when `now - createdAt` exceeds 2,592,000 seconds,
and fails as not found for an unknown refresh token. -/
theorem refresh_token_rejections
    (st : ProviderState) (client : ClientInfo) (rt : String) (scopes : Option (List String))
    (nowS : Int) (newAT : String) (res : Option String) :
    (∀ d, mGet st.refreshTokens rt = some d → d.clientId ≠ client.client_id →
      exchangeRefreshToken defaultConfig st client rt scopes nowS newAT res =
        (.error "Refresh token does not belong to this client", st))
    ∧ (∀ d, mGet st.refreshTokens rt = some d → d.clientId = client.client_id →
        nowS - d.createdAt > 2592000 →
        exchangeRefreshToken defaultConfig st client rt scopes nowS newAT res =
          (.error "Refresh token expired",
           { st with refreshTokens := mDel st.refreshTokens rt }))
    ∧ (mGet st.refreshTokens rt = none →
        exchangeRefreshToken defaultConfig st client rt scopes nowS newAT res =
          (.error "Invalid refresh token", st)) := by
  refine ⟨?_, ?_, ?_⟩
  · intro d hget hne
    simp [exchangeRefreshToken, hget, hne]
  · intro d hget hown hexp
    have httl : defaultConfig.refreshTokenTTL = 2592000 := by decide
    simp [exchangeRefreshToken, hget, hown, httl, hexp]
  · intro hget
    simp [exchangeRefreshToken, hget]

theorem refresh_token_rejections_witness :
    (exchangeRefreshToken defaultConfig
        { codes := [], tokens := [],
          refreshTokens := [("r", { clientId := "c1", scopes := ["mcp:tools"],
                                    twentyApiKey := "key", createdAt := 0 })] }
        { client_id := "c2" } "r" none 10 "a1" none =
      (.error "Refresh token does not belong to this client",
       { codes := [], tokens := [],
         refreshTokens := [("r", { clientId := "c1", scopes := ["mcp:tools"],
                                   twentyApiKey := "key", createdAt := 0 })] }))
    ∧ (exchangeRefreshToken defaultConfig
        { codes := [], tokens := [],
          refreshTokens := [("r", { clientId := "c1", scopes := ["mcp:tools"],
                                    twentyApiKey := "key", createdAt := 0 })] }
        { client_id := "c1" } "r" none 2592001 "a1" none =
      (.error "Refresh token expired", { codes := [], tokens := [], refreshTokens := [] }))
    ∧ (exchangeRefreshToken defaultConfig
        { codes := [], tokens := [], refreshTokens := [] }
        { client_id := "c1" } "missing" none 10 "a1" none =
      (.error "Invalid refresh token",
       { codes := [], tokens := [], refreshTokens := [] })) := by
  refine ⟨?_, ?_, ?_⟩
  · exact (refresh_token_rejections _ _ _ _ _ _ _).1 _ (by rfl) (by decide)
  · exact (refresh_token_rejections _ _ _ _ _ _ _).2.1 _ (by rfl) (by rfl) (by decide)
  · exact (refresh_token_rejections _ _ _ _ _ _ _).2.2 (by rfl)

/-- C4: a successful `exchangeRefreshToken` stores (and returns in the scope
string) the requested scopes intersected with the refresh token's original
scopes when a non-empty request is supplied, and the original scopes
unchanged otherwise. -/
theorem refresh_token_scope_selection
    (st : ProviderState) (client : ClientInfo) (rt : String) (nowS : Int)
    (newAT : String) (res : Option String) (d : RefreshData)
    (hget : mGet st.refreshTokens rt = some d)
    (hown : d.clientId = client.client_id)
    (hfresh : ¬ (nowS - d.createdAt > defaultConfig.refreshTokenTTL)) :
    (∀ requested : List String, requested ≠ [] →
      exchangeRefreshToken defaultConfig st client rt (some requested) nowS newAT res =
        (.ok { access_token := newAT, token_type := "Bearer", expires_in := 3600,
               refresh_token := none,
               scope := joinScopes (requested.filter (fun s => d.scopes.contains s)) },
         { st with tokens := (mSet st.tokens newAT
             ⟨client.client_id, requested.filter (fun s => d.scopes.contains s),
              nowS + 3600, d.twentyApiKey, res⟩) }))
    ∧ (∀ requested : Option (List String), requested = none ∨ requested = some [] →
        exchangeRefreshToken defaultConfig st client rt requested nowS newAT res =
          (.ok { access_token := newAT, token_type := "Bearer", expires_in := 3600,
                 refresh_token := none, scope := joinScopes d.scopes },
           { st with tokens := (mSet st.tokens newAT
               ⟨client.client_id, d.scopes, nowS + 3600, d.twentyApiKey, res⟩) })) := by
  have httl : defaultConfig.refreshTokenTTL = 2592000 := by decide
  rw [httl] at hfresh
  constructor
  · intro requested hne
    have hlen : requested.length > 0 := List.length_pos.mpr hne
    simp [exchangeRefreshToken, hget, hown, hlen, defaultConfig]
    omega
  · intro requested hcase
    rcases hcase with h | h <;> subst h <;>
      simp [exchangeRefreshToken, hget, hown, defaultConfig] <;> omega

theorem refresh_token_scope_selection_witness :
    (exchangeRefreshToken defaultConfig
        { codes := [], tokens := [],
          refreshTokens := [("r", { clientId := "c1", scopes := ["mcp:tools", "extra"],
                                    twentyApiKey := "key", createdAt := 0 })] }
        { client_id := "c1" } "r" (some ["mcp:tools", "other"]) 100 "a1" none =
      (.ok { access_token := "a1", token_type := "Bearer", expires_in := 3600,
             refresh_token := none, scope := "mcp:tools" },
       { codes := [], tokens := [("a1", { clientId := "c1", scopes := ["mcp:tools"],
                                          expiresAt := 3700, twentyApiKey := "key",
                                          resource := none })],
         refreshTokens := [("r", { clientId := "c1", scopes := ["mcp:tools", "extra"],
                                   twentyApiKey := "key", createdAt := 0 })] }))
    ∧ (exchangeRefreshToken defaultConfig
        { codes := [], tokens := [],
          refreshTokens := [("r", { clientId := "c1", scopes := ["mcp:tools", "extra"],
                                    twentyApiKey := "key", createdAt := 0 })] }
        { client_id := "c1" } "r" none 100 "a1" none =
      (.ok { access_token := "a1", token_type := "Bearer", expires_in := 3600,
             refresh_token := none, scope := "mcp:tools extra" },
       { codes := [], tokens := [("a1", { clientId := "c1", scopes := ["mcp:tools", "extra"],
                                          expiresAt := 3700, twentyApiKey := "key",
                                          resource := none })],
         refreshTokens := [("r", { clientId := "c1", scopes := ["mcp:tools", "extra"],
                                   twentyApiKey := "key", createdAt := 0 })] })) := by
  constructor
  · have h := (refresh_token_scope_selection
      { codes := [], tokens := [],
        refreshTokens := [("r", { clientId := "c1", scopes := ["mcp:tools", "extra"],
                                  twentyApiKey := "key", createdAt := 0 })] }
      { client_id := "c1" } "r" 100 "a1" none
      { clientId := "c1", scopes := ["mcp:tools", "extra"],
        twentyApiKey := "key", createdAt := 0 }
      (by rfl) (by rfl) (by decide)).1 ["mcp:tools", "other"] (by decide)
    simpa [joinScopes] using h
  · have h := (refresh_token_scope_selection
      { codes := [], tokens := [],
        refreshTokens := [("r", { clientId := "c1", scopes := ["mcp:tools", "extra"],
                                  twentyApiKey := "key", createdAt := 0 })] }
      { client_id := "c1" } "r" 100 "a1" none
      { clientId := "c1", scopes := ["mcp:tools", "extra"],
        twentyApiKey := "key", createdAt := 0 }
      (by rfl) (by rfl) (by decide)).2 none (Or.inl rfl)
    simpa [joinScopes] using h

/-- C5: `revokeToken` is total (it never raises): with a token absent from
both stores or owned by another client it leaves the state unchanged, and in
general each store is either untouched or has exactly the requested token
deleted, and only when that entry exists and is owned by the requesting
client; the code store is never touched. -/
theorem revoke_token_safety
    (st : ProviderState) (client : ClientInfo) (token : String) (hint : Option String) :
    ((∀ d, mGet st.tokens token = some d → d.clientId ≠ client.client_id) →
     (∀ d, mGet st.refreshTokens token = some d → d.clientId ≠ client.client_id) →
     revokeToken st client token hint = st)
    ∧ ((revokeToken st client token hint).tokens = st.tokens ∨
       ∃ d, mGet st.tokens token = some d ∧ d.clientId = client.client_id ∧
         (revokeToken st client token hint).tokens = mDel st.tokens token)
    ∧ ((revokeToken st client token hint).refreshTokens = st.refreshTokens ∨
       ∃ d, mGet st.refreshTokens token = some d ∧ d.clientId = client.client_id ∧
         (revokeToken st client token hint).refreshTokens = mDel st.refreshTokens token)
    ∧ (revokeToken st client token hint).codes = st.codes := by
  refine ⟨?_, ?_, ?_, ?_⟩
  · intro h1 h2
    simp only [revokeToken]
    split
    · next h =>
        exfalso
        have hOwn := (Bool.and_eq_true _ _).mp h |>.2
        cases hA : mGet st.tokens token with
        | none => rw [hA] at hOwn; exact Bool.false_ne_true hOwn
        | some d =>
            rw [hA] at hOwn
            exact h1 d hA (beq_iff_eq.mp hOwn)
    · split
      · next h =>
          exfalso
          have hOwn := (Bool.and_eq_true _ _).mp h |>.2
          cases hR : mGet st.refreshTokens token with
          | none => rw [hR] at hOwn; exact Bool.false_ne_true hOwn
          | some d =>
              rw [hR] at hOwn
              exact h2 d hR (beq_iff_eq.mp hOwn)
      · rfl
  · simp only [revokeToken]
    split
    · next h =>
        have hOwn := (Bool.and_eq_true _ _).mp h |>.2
        cases hA : mGet st.tokens token with
        | none => rw [hA] at hOwn; exact absurd hOwn Bool.false_ne_true
        | some d =>
            rw [hA] at hOwn
            exact Or.inr ⟨d, rfl, beq_iff_eq.mp hOwn, rfl⟩
    · split
      · exact Or.inl rfl
      · exact Or.inl rfl
  · simp only [revokeToken]
    split
    · exact Or.inl rfl
    · split
      · next h =>
          have hOwn := (Bool.and_eq_true _ _).mp h |>.2
          cases hR : mGet st.refreshTokens token with
          | none => rw [hR] at hOwn; exact absurd hOwn Bool.false_ne_true
          | some d =>
              rw [hR] at hOwn
              exact Or.inr ⟨d, rfl, beq_iff_eq.mp hOwn, rfl⟩
      · exact Or.inl rfl
  · simp only [revokeToken]
    split
    · rfl
    · split
      · rfl
      · rfl

theorem revoke_token_safety_witness :
    (revokeToken { codes := [], tokens := [], refreshTokens := [] }
        { client_id := "c1" } "missing" none =
      { codes := [], tokens := [], refreshTokens := [] })
    ∧ (revokeToken
        { codes := [],
          tokens := [("t", { clientId := "other", scopes := ["mcp:tools"],
                             expiresAt := 100, twentyApiKey := "key", resource := none })],
          refreshTokens := [] }
        { client_id := "c1" } "t" none =
      { codes := [],
        tokens := [("t", { clientId := "other", scopes := ["mcp:tools"],
                           expiresAt := 100, twentyApiKey := "key", resource := none })],
        refreshTokens := [] }) := by
  constructor
  · exact (revoke_token_safety { codes := [], tokens := [], refreshTokens := [] }
      { client_id := "c1" } "missing" none).1
      (fun d hd => by simp [mGet] at hd) (fun d hd => by simp [mGet] at hd)
  · exact (revoke_token_safety
      { codes := [],
        tokens := [("t", { clientId := "other", scopes := ["mcp:tools"],
                           expiresAt := 100, twentyApiKey := "key", resource := none })],
        refreshTokens := [] }
      { client_id := "c1" } "t" none).1
      (fun d hd => by
        simp [mGet] at hd
        rw [← hd]
        decide)
      (fun d hd => by simp [mGet] at hd)

/-- C9: `getApiKeyForToken` performs no expiry check — an access token still
present in the store but past its expiry (and bound to a non-empty key, as
every stored key is) still yields its CRM API key, even though
`verifyAccessToken` on the same token at the same time fails as expired and
deletes the entry. -/
theorem api_key_lookup_skips_expiry
    (st : ProviderState) (token : String) (nowS : Int) (d : TokenData)
    (hget : mGet st.tokens token = some d)
    (hexp : nowS > d.expiresAt)
    (hkey : d.twentyApiKey.isEmpty = false) :
    getApiKeyForToken st token = some d.twentyApiKey
    ∧ verifyAccessToken st token nowS =
        (.error "Access token expired", { st with tokens := mDel st.tokens token }) := by
  constructor
  · simp [getApiKeyForToken, hget, hkey]
  · simp [verifyAccessToken, hget, hexp]

theorem api_key_lookup_skips_expiry_witness :
    getApiKeyForToken
        { codes := [], tokens := [("t", { clientId := "c1", scopes := ["mcp:tools"],
                                          expiresAt := 100, twentyApiKey := "key",
                                          resource := none })],
          refreshTokens := [] } "t" = some "key"
    ∧ verifyAccessToken
        { codes := [], tokens := [("t", { clientId := "c1", scopes := ["mcp:tools"],
                                          expiresAt := 100, twentyApiKey := "key",
                                          resource := none })],
          refreshTokens := [] } "t" 101 =
      (.error "Access token expired",
       { codes := [], tokens := [], refreshTokens := [] }) := by
  have h := api_key_lookup_skips_expiry
    { codes := [], tokens := [("t", { clientId := "c1", scopes := ["mcp:tools"],
                                      expiresAt := 100, twentyApiKey := "key",
                                      resource := none })],
      refreshTokens := [] } "t" 101
    { clientId := "c1", scopes := ["mcp:tools"], expiresAt := 100,
      twentyApiKey := "key", resource := none }
    (by rfl) (by decide) (by rfl)
  simpa [mDel] using h

/-- C10: authorization codes are not bound to a client — the stored
`CodeData` record carries no client identifier, and `exchangeAuthorizationCode`
performs no ownership check, so every registered client presented as the
caller can exchange any stored unexpired code, and the minted access and
refresh tokens are bound to that caller's `client_id`. -/
theorem auth_code_not_client_bound
    (st : ProviderState) (client : ClientInfo) (code : String) (cd : CodeData)
    (cv : Option String) (nowMs : Int) (newAT newRT : String) (res : Option String)
    (hget : mGet st.codes code = some cd)
    (hfresh : ¬ (nowMs > cd.expiresAt)) :
    exchangeAuthorizationCode defaultConfig st client code cv nowMs newAT newRT res =
      (.ok { access_token := newAT, token_type := "Bearer", expires_in := 3600,
             refresh_token := some newRT, scope := joinScopes cd.scopes },
       { codes := mDel st.codes code,
         tokens := (mSet st.tokens newAT
           ⟨client.client_id, cd.scopes, nowMs / 1000 + 3600, cd.twentyApiKey, res⟩),
         refreshTokens := (mSet st.refreshTokens newRT
           ⟨client.client_id, cd.scopes, cd.twentyApiKey, nowMs / 1000⟩) })
    ∧ mGet (exchangeAuthorizationCode defaultConfig st client code cv nowMs newAT newRT res).2.tokens
        newAT = some ⟨client.client_id, cd.scopes, nowMs / 1000 + 3600, cd.twentyApiKey, res⟩
    ∧ mGet (exchangeAuthorizationCode defaultConfig st client code cv nowMs newAT newRT res).2.refreshTokens
        newRT = some ⟨client.client_id, cd.scopes, cd.twentyApiKey, nowMs / 1000⟩ := by
  have hmain :
      exchangeAuthorizationCode defaultConfig st client code cv nowMs newAT newRT res =
        (.ok { access_token := newAT, token_type := "Bearer", expires_in := 3600,
               refresh_token := some newRT, scope := joinScopes cd.scopes },
         { codes := mDel st.codes code,
           tokens := (mSet st.tokens newAT
             ⟨client.client_id, cd.scopes, nowMs / 1000 + 3600, cd.twentyApiKey, res⟩),
           refreshTokens := (mSet st.refreshTokens newRT
             ⟨client.client_id, cd.scopes, cd.twentyApiKey, nowMs / 1000⟩) }) := by
    simp [exchangeAuthorizationCode, hget, hfresh, defaultConfig]
  refine ⟨hmain, ?_, ?_⟩
  · rw [hmain]; exact mGet_mSet_self _ _ _
  · rw [hmain]; exact mGet_mSet_self _ _ _

theorem auth_code_not_client_bound_witness :
    exchangeAuthorizationCode defaultConfig
        { codes := [("c", { twentyApiKey := "key", codeChallenge := "ch",
                            redirectUri := "http://x", state := "s",
                            scopes := ["mcp:tools"], expiresAt := 300000 })],
          tokens := [], refreshTokens := [] }
        { client_id := "someOtherClient" } "c" none 1000 "a1" "r1" none =
      (.ok { access_token := "a1", token_type := "Bearer", expires_in := 3600,
             refresh_token := some "r1", scope := "mcp:tools" },
       { codes := [],
         tokens := [("a1", { clientId := "someOtherClient", scopes := ["mcp:tools"],
                             expiresAt := 3601, twentyApiKey := "key", resource := none })],
         refreshTokens := [("r1", { clientId := "someOtherClient", scopes := ["mcp:tools"],
                                    twentyApiKey := "key", createdAt := 1 })] }) := by
  have h := (auth_code_not_client_bound
    { codes := [("c", { twentyApiKey := "key", codeChallenge := "ch",
                        redirectUri := "http://x", state := "s",
                        scopes := ["mcp:tools"], expiresAt := 300000 })],
      tokens := [], refreshTokens := [] }
    { client_id := "someOtherClient" } "c"
    { twentyApiKey := "key", codeChallenge := "ch", redirectUri := "http://x",
      state := "s", scopes := ["mcp:tools"], expiresAt := 300000 }
    none 1000 "a1" "r1" none (by rfl) (by decide)).1
  simpa [mDel, mSet, joinScopes] using h

/-- C1: a code stored by a successful `handleAuthorizeSubmit` (which gives it
the default 300-second expiry) can be exchanged exactly once while unexpired:
the first exchange succeeds and deletes the code, so any later exchange of
the same code fails as invalid; an exchange after the 300-second expiry fails
as expired and deletes the code entry. -/
theorem auth_code_one_time_use
    (st0 st : ProviderState) (body : SubmitBody) (keyCheck : FetchOutcome)
    (code : String) (nowMs : Int) (u c2 : String) (sOpt : Option String)
    (hsub : handleAuthorizeSubmit defaultConfig st0 body keyCheck code nowMs =
            (SubmitResult.redirect u c2 sOpt, st))
    (client : ClientInfo) (cv : Option String) (t : Int) (newAT newRT : String)
    (res : Option String) :
    (¬ (t > nowMs + 300 * 1000) →
      ∃ resp st1,
        exchangeAuthorizationCode defaultConfig st client code cv t newAT newRT res =
          (.ok resp, st1)
        ∧ mGet st1.codes code = none
        ∧ ∀ (client2 : ClientInfo) (cv2 : Option String) (t2 : Int)
            (newAT2 newRT2 : String) (res2 : Option String),
            exchangeAuthorizationCode defaultConfig st1 client2 code cv2 t2 newAT2 newRT2 res2 =
              (.error "Invalid authorization code", st1))
    ∧ (t > nowMs + 300 * 1000 →
        exchangeAuthorizationCode defaultConfig st client code cv t newAT newRT res =
          (.error "Authorization code expired", { st with codes := mDel st.codes code })) := by
  have hst : st = { st0 with codes := (mSet st0.codes code
      ⟨body.api_key, body.code_challenge, body.redirect_uri, body.state,
       ["mcp:tools"], nowMs + 300 * 1000⟩) } := by
    unfold handleAuthorizeSubmit at hsub
    split at hsub
    · exact absurd (congrArg Prod.fst hsub) (by simp)
    · split at hsub
      · exact absurd (congrArg Prod.fst hsub) (by simp)
      · have := congrArg Prod.snd hsub
        simp only at this
        rw [← this]
        rfl
  have hget : mGet st.codes code = some
      (⟨body.api_key, body.code_challenge, body.redirect_uri, body.state,
        ["mcp:tools"], nowMs + 300 * 1000⟩ : CodeData) := by
    rw [hst]; exact mGet_mSet_self _ _ _
  constructor
  · intro hfresh
    have hfresh2 : ¬ (t > nowMs + 300000) := by omega
    refine ⟨{ access_token := newAT, token_type := "Bearer", expires_in := 3600,
              refresh_token := some newRT, scope := joinScopes ["mcp:tools"] },
            { codes := mDel st.codes code,
              tokens := (mSet st.tokens newAT
                ⟨client.client_id, ["mcp:tools"], t / 1000 + 3600, body.api_key, res⟩),
              refreshTokens := (mSet st.refreshTokens newRT
                ⟨client.client_id, ["mcp:tools"], body.api_key, t / 1000⟩) }, ?_, ?_, ?_⟩
    · simp [exchangeAuthorizationCode, hget, defaultConfig, hfresh, hfresh2]
    · exact mGet_mDel_self _ _
    · intro client2 cv2 t2 newAT2 newRT2 res2
      simp [exchangeAuthorizationCode, mGet_mDel_self]
  · intro hexp
    simp [exchangeAuthorizationCode, hget, hexp, defaultConfig]
    omega

theorem auth_code_one_time_use_witness :
    (¬ ((5 : Int) > 0 + 300 * 1000) →
      ∃ resp st1,
        exchangeAuthorizationCode defaultConfig
          { codes := [("c", { twentyApiKey := "k", codeChallenge := "ch",
                              redirectUri := "http://x", state := "s",
                              scopes := ["mcp:tools"], expiresAt := 300000 })],
            tokens := [], refreshTokens := [] }
          { client_id := "c1" } "c" none 5 "a1" "r1" none = (.ok resp, st1)
        ∧ mGet st1.codes "c" = none
        ∧ ∀ (client2 : ClientInfo) (cv2 : Option String) (t2 : Int)
            (newAT2 newRT2 : String) (res2 : Option String),
            exchangeAuthorizationCode defaultConfig st1 client2 "c" cv2 t2 newAT2 newRT2 res2 =
              (.error "Invalid authorization code", st1))
    ∧ ((5 : Int) > 0 + 300 * 1000 →
        exchangeAuthorizationCode defaultConfig
          { codes := [("c", { twentyApiKey := "k", codeChallenge := "ch",
                              redirectUri := "http://x", state := "s",
                              scopes := ["mcp:tools"], expiresAt := 300000 })],
            tokens := [], refreshTokens := [] }
          { client_id := "c1" } "c" none 5 "a1" "r1" none =
          (.error "Authorization code expired",
           { codes := (mDel [("c", { twentyApiKey := "k", codeChallenge := "ch",
                                     redirectUri := "http://x", state := "s",
                                     scopes := ["mcp:tools"], expiresAt := 300000 })] "c"),
             tokens := [], refreshTokens := [] })) :=
  auth_code_one_time_use
    { codes := [], tokens := [], refreshTokens := [] }
    { codes := [("c", { twentyApiKey := "k", codeChallenge := "ch",
                        redirectUri := "http://x", state := "s",
                        scopes := ["mcp:tools"], expiresAt := 300000 })],
      tokens := [], refreshTokens := [] }
    { api_key := "k", state := "s", redirect_uri := "http://x", code_challenge := "ch" }
    (FetchOutcome.success 200) "c" 0 "http://x" "c" (some "s")
    (by decide)
    { client_id := "c1" } none 5 "a1" "r1" none

/-- C2 counterexample: `validateTwentyApiKey` returns `response.ok`, which is
true for every 2xx status, so a 204 response makes it return true even though
the status is not 200. -/
theorem validate_api_key_status_counterexample :
    validateTwentyApiKey (FetchOutcome.success 204) = true ∧ (204 : Nat) ≠ 200 := by
  decide

/-- C2 (amended): `validateTwentyApiKey` returns true exactly when the
people-listing request answers with a 2xx status (`response.ok`); any other
status and any network failure make it return false, and
`handleAuthorizeSubmit` then re-renders the page with HTTP status 400 and the
inline invalid-API-key error instead of issuing a code. -/
theorem validate_api_key_ok_and_reject
    : (∀ o : FetchOutcome, validateTwentyApiKey o = true ↔
         ∃ status, o = FetchOutcome.success status ∧ 200 ≤ status ∧ status < 300)
      ∧ (∀ (st : ProviderState) (body : SubmitBody) (keyCheck : FetchOutcome)
           (newCode : String) (nowMs : Int),
           body.api_key.isEmpty = false → body.redirect_uri.isEmpty = false →
           validateTwentyApiKey keyCheck = false →
           handleAuthorizeSubmit defaultConfig st body keyCheck newCode nowMs =
             (SubmitResult.page 400 (generateAuthorizePage
               { clientName := "Unknown", scopes := [], state := body.state,
                 redirectUri := body.redirect_uri, codeChallenge := body.code_challenge,
                 error := some "Invalid API key. Please check your Twenty CRM API key and try again." }),
              st)) := by
  constructor
  · intro o
    cases o with
    | success status => simp [validateTwentyApiKey]
    | failure m => simp [validateTwentyApiKey]
  · intro st body keyCheck newCode nowMs hkey huri hval
    simp [handleAuthorizeSubmit, hkey, huri, hval]

theorem validate_api_key_ok_and_reject_witness :
    handleAuthorizeSubmit defaultConfig { codes := [], tokens := [], refreshTokens := [] }
      { api_key := "k", state := "s", redirect_uri := "http://x", code_challenge := "ch" }
      (FetchOutcome.failure "network down") "c" 0 =
      (SubmitResult.page 400 (generateAuthorizePage
        { clientName := "Unknown", scopes := [], state := "s",
          redirectUri := "http://x", codeChallenge := "ch",
          error := some "Invalid API key. Please check your Twenty CRM API key and try again." }),
       { codes := [], tokens := [], refreshTokens := [] }) :=
  validate_api_key_ok_and_reject.2
    { codes := [], tokens := [], refreshTokens := [] }
    { api_key := "k", state := "s", redirect_uri := "http://x", code_challenge := "ch" }
    (FetchOutcome.failure "network down") "c" 0 (by decide) (by decide) (by decide)

/-- C8: the desktop proxy's call-tool handler is total: a thrown remote error
is converted into a protocol result with `isError` set and a text content item
carrying the error's message, and a successful remote result is forwarded
verbatim — the exception never propagates to the local stdio session. -/
theorem proxy_call_tool_error_shielding :
    (∀ e : ThrownValue, proxyCallToolHandler (.error e) =
       { content := [ToolContent.text ("Error: " ++ thrownMessage e)], isError := true })
    ∧ (∀ r : ToolCallResult, proxyCallToolHandler (.ok r) = r) :=
  ⟨fun _ => rfl, fun _ => rfl⟩

/-- C7: each of the four field-normalization functions is idempotent, and a
value already in the CRM's structured shape — detected by the presence of its
primary/prefixed key — is returned unchanged. -/
theorem normalization_idempotent :
    (∀ v, normalizeEmailsValue (normalizeEmailsValue v) = normalizeEmailsValue v)
    ∧ (∀ v, normalizePhonesValue (normalizePhonesValue v) = normalizePhonesValue v)
    ∧ (∀ v, normalizeAddressValue (normalizeAddressValue v) = normalizeAddressValue v)
    ∧ (∀ v, normalizeLinksValue (normalizeLinksValue v) = normalizeLinksValue v)
    ∧ (∀ fields, (mGet fields "primaryEmail").isSome = true →
         normalizeEmailsValue (JsonVal.obj fields) = JsonVal.obj fields)
    ∧ (∀ fields, (mGet fields "primaryPhoneNumber").isSome = true →
         normalizePhonesValue (JsonVal.obj fields) = JsonVal.obj fields)
    ∧ (∀ fields, (mGet fields "addressStreet1").isSome = true →
         normalizeAddressValue (JsonVal.obj fields) = JsonVal.obj fields)
    ∧ (∀ fields, (mGet fields "primaryLinkUrl").isSome = true →
         normalizeLinksValue (JsonVal.obj fields) = JsonVal.obj fields) := by
  refine ⟨?_, ?_, ?_, ?_, fun _ _ => rfl, fun _ _ => rfl, ?_, fun _ _ => rfl⟩
  · intro v; cases v <;> rfl
  · intro v; cases v <;> rfl
  · intro v
    cases v with
    | str s => rfl
    | arr items => rfl
    | nullv => rfl
    | obj fields =>
        cases h : mGet fields "addressStreet1" with
        | some w => simp [normalizeAddressValue, h]
        | none =>
            show normalizeAddressValue (normalizeAddressValue (JsonVal.obj fields)) = _
            simp only [normalizeAddressValue, h]
            rfl
  · intro v; cases v <;> rfl
  · intro fields h
    simp [normalizeAddressValue, h]

theorem normalization_idempotent_witness :
    normalizeEmailsValue (normalizeEmailsValue (JsonVal.str "test@example.com")) =
      normalizeEmailsValue (JsonVal.str "test@example.com")
    ∧ normalizePhonesValue (normalizePhonesValue (JsonVal.str "+41 44 123 45 67")) =
      normalizePhonesValue (JsonVal.str "+41 44 123 45 67")
    ∧ normalizeAddressValue (normalizeAddressValue (JsonVal.str "Gotthardstrasse 63")) =
      normalizeAddressValue (JsonVal.str "Gotthardstrasse 63")
    ∧ normalizeLinksValue (normalizeLinksValue (JsonVal.str "https://example.org")) =
      normalizeLinksValue (JsonVal.str "https://example.org")
    ∧ normalizeEmailsValue
        (JsonVal.obj [("primaryEmail", JsonVal.str "test@example.com"),
                      ("additionalEmails", JsonVal.nullv)]) =
      JsonVal.obj [("primaryEmail", JsonVal.str "test@example.com"),
                   ("additionalEmails", JsonVal.nullv)]
    ∧ normalizePhonesValue
        (JsonVal.obj [("primaryPhoneNumber", JsonVal.str "+41 44 123 45 67")]) =
      JsonVal.obj [("primaryPhoneNumber", JsonVal.str "+41 44 123 45 67")]
    ∧ normalizeAddressValue
        (JsonVal.obj [("addressStreet1", JsonVal.str "Gotthardstrasse 63")]) =
      JsonVal.obj [("addressStreet1", JsonVal.str "Gotthardstrasse 63")]
    ∧ normalizeLinksValue
        (JsonVal.obj [("primaryLinkUrl", JsonVal.str "https://example.org")]) =
      JsonVal.obj [("primaryLinkUrl", JsonVal.str "https://example.org")] :=
  ⟨normalization_idempotent.1 _,
   normalization_idempotent.2.1 _,
   normalization_idempotent.2.2.1 _,
   normalization_idempotent.2.2.2.1 _,
   normalization_idempotent.2.2.2.2.1 _ (by rfl),
   normalization_idempotent.2.2.2.2.2.1 _ (by rfl),
   normalization_idempotent.2.2.2.2.2.2.1 _ (by rfl),
   normalization_idempotent.2.2.2.2.2.2.2 _ (by rfl)⟩

theorem replaceCharL_append (c : Char) (r : List Char) (l1 l2 : List Char) :
    replaceCharL c r (l1 ++ l2) = replaceCharL c r l1 ++ replaceCharL c r l2 := by
  induction l1 with
  | nil => rfl
  | cons a rest ih => simp [replaceCharL, ih]

theorem escape_chain_eq (l : List Char) :
    replaceCharL '\x27' "&#39;".data
      (replaceCharL '"' "&quot;".data
        (replaceCharL '>' "&gt;".data
          (replaceCharL '<' "&lt;".data
            (replaceCharL '&' "&amp;".data l)))) = escAll l := by
  induction l with
  | nil => rfl
  | cons c rest ih =>
    have hstep : replaceCharL '&' "&amp;".data (c :: rest) =
        (if c = '&' then "&amp;".data else [c]) ++ replaceCharL '&' "&amp;".data rest := rfl
    rw [hstep, replaceCharL_append, replaceCharL_append, replaceCharL_append,
        replaceCharL_append, ih]
    have hhead : replaceCharL '\x27' "&#39;".data
        (replaceCharL '"' "&quot;".data
          (replaceCharL '>' "&gt;".data
            (replaceCharL '<' "&lt;".data
              (if c = '&' then "&amp;".data else [c])))) = escBlock c := by
      by_cases h1 : c = '&'
      · subst h1; rfl
      · by_cases h2 : c = '<'
        · subst h2; rfl
        · by_cases h3 : c = '>'
          · subst h3; rfl
          · by_cases h4 : c = '"'
            · subst h4; rfl
            · by_cases h5 : c = '\x27'
              · subst h5; rfl
              · simp [replaceCharL, escBlock, h1, h2, h3, h4, h5]
    rw [hhead]
    rfl

theorem escapeHtml_data (s : String) : (escapeHtml s).data = escAll s.data := by
  by_cases h : s.isEmpty
  · have hs : s = "" := (String.isEmpty_iff s).mp h
    subst hs
    rfl
  · show (escapeHtml s).data = escAll s.data
    unfold escapeHtml
    rw [if_neg h]
    show replaceCharL '\x27' "&#39;".data
        (replaceCharL '"' "&quot;".data
          (replaceCharL '>' "&gt;".data
            (replaceCharL '<' "&lt;".data
              (replaceCharL '&' "&amp;".data s.data)))) = escAll s.data
    exact escape_chain_eq s.data

theorem entityCleanB_block (c : Char) (rest : List Char) (h : entityCleanB rest = true) :
    entityCleanB (escBlock c ++ rest) = true := by
  by_cases h1 : c = '&'
  · subst h1
    show entityCleanB ('&' :: 'a' :: 'm' :: 'p' :: ';' :: rest) = true
    simp [entityCleanB, isEntityStart, htmlEntities, List.isPrefixOf, h]
  · by_cases h2 : c = '<'
    · subst h2
      show entityCleanB ('&' :: 'l' :: 't' :: ';' :: rest) = true
      simp [entityCleanB, isEntityStart, htmlEntities, List.isPrefixOf, h]
    · by_cases h3 : c = '>'
      · subst h3
        show entityCleanB ('&' :: 'g' :: 't' :: ';' :: rest) = true
        simp [entityCleanB, isEntityStart, htmlEntities, List.isPrefixOf, h]
      · by_cases h4 : c = '"'
        · subst h4
          show entityCleanB ('&' :: 'q' :: 'u' :: 'o' :: 't' :: ';' :: rest) = true
          simp [entityCleanB, isEntityStart, htmlEntities, List.isPrefixOf, h]
        · by_cases h5 : c = '\x27'
          · subst h5
            show entityCleanB ('&' :: '#' :: '3' :: '9' :: ';' :: rest) = true
            simp [entityCleanB, isEntityStart, htmlEntities, List.isPrefixOf, h]
          · simp [escBlock, entityCleanB, h1, h2, h3, h4, h5, h]

theorem entityCleanB_escAll (l : List Char) : entityCleanB (escAll l) = true := by
  induction l with
  | nil => rfl
  | cons c rest ih => exact entityCleanB_block c (escAll rest) ih

theorem escBlock_ne_nil (c : Char) : escBlock c ≠ [] := by
  unfold escBlock
  split_ifs <;> simp

theorem escapeHtml_isEmpty (s : String) : (escapeHtml s).isEmpty = s.isEmpty := by
  by_cases h : s.isEmpty
  · have hs : s = "" := (String.isEmpty_iff s).mp h
    subst hs; rfl
  · have h2 : s.isEmpty = false := by simpa using h
    rw [h2]
    by_contra hx
    have h3 : (escapeHtml s).isEmpty = true := by
      revert hx; cases (escapeHtml s).isEmpty <;> simp
    have h4 : escapeHtml s = "" := (String.isEmpty_iff _).mp h3
    have h5 : escAll s.data = [] := by
      have := congrArg String.data h4
      rw [escapeHtml_data] at this
      exact this
    cases hdl : s.data with
    | nil =>
        exact h (by rw [String.isEmpty_iff]; exact String.ext hdl)
    | cons c rest =>
        rw [hdl] at h5
        simp only [escAll, List.append_eq_nil] at h5
        exact (escBlock_ne_nil c) h5.1

/-- C6: every `generateAuthorizePage` document interpolates caller-supplied
strings only through `escapeHtml` (the page factors through the raw template
applied to escaped pieces), and every `escapeHtml` output is markup-clean:
it contains no raw `<`, `>`, `"` or apostrophe, and each ampersand in it
begins one of the five replacement entities (the ampersand replacement is
performed first). -/
theorem authorize_page_escapes_inputs :
    (∀ s : String, entityCleanB (escapeHtml s).data = true)
    ∧ (∀ opts : AuthorizePageOptions,
        generateAuthorizePage opts =
          pageFromEscaped
            (escapeHtml (if opts.clientName.isEmpty then "Unknown Application"
                         else opts.clientName))
            (opts.scopes.map escapeHtml)
            (escapeHtml opts.state) (escapeHtml opts.redirectUri)
            (escapeHtml opts.codeChallenge)
            (opts.error.map escapeHtml)) := by
  constructor
  · intro s
    rw [escapeHtml_data]
    exact entityCleanB_escAll s.data
  · intro opts
    have hscope : scopeListHtml opts.scopes =
        (if (opts.scopes.map escapeHtml).length > 0 then
          String.join ((opts.scopes.map escapeHtml).map (fun s => "<li>" ++ s ++ "</li>"))
        else "<li>mcp:tools (default)</li>") := by
      unfold scopeListHtml
      simp [List.length_map, List.map_map, Function.comp_def]
    have herror : errorBannerHtml opts.error =
        (match opts.error.map escapeHtml with
         | some e => if e.isEmpty then "" else "<div class=\"error\">" ++ e ++ "</div>"
         | none => "") := by
      cases opts.error with
      | none => rfl
      | some e => simp [errorBannerHtml, escapeHtml_isEmpty]
    unfold generateAuthorizePage pageFromEscaped
    rw [hscope, herror]
